import Mathlib

/-!
# Cart lifecycle and merge engine — verification development

Shallow embedding of the shopping-cart backend (`src/backend/cart/models.py`,
`src/backend/cart/serializers.py`, `src/backend/cart/views.py`,
`src/backend/core/middleware.py`) and proofs of the specification's claims
about it.

The repository's `cart/services.py` (class `CartService`) and
`cart/constants.py` (`MAX_CART_QUANTITY`) are referenced by the views and
serializers but their source is not available; wherever a definition below
embeds that missing code it is marked `Modelled from the spec:` and follows
the specification's contract for the corresponding operation.  Everything
else is translated directly from the Python source.

Conventions of the embedding:
* Django model rows become Lean structures; the database becomes an explicit
  `Store` value threaded through every operation.
* `DecimalField` prices and `FloatField` carbon scores are embedded as `ℚ`
  (exact arithmetic; the aggregate structure is what the claims are about).
* Django ORM aggregates (`Sum` + `Coalesce`) are embedded literally: `Sum`
  over an empty row set is `none` (SQL `NULL`) and `Coalesce` supplies the
  default, exactly as in `models.py`.
* Business errors carry the specification's §7 taxonomy (kind + message);
  the concrete Python exception classes live in the missing `services.py`,
  so the kinds are assigned by the condition each check tests, following
  §7: a per-product-cap violation is `limitExceeded`, malformed input is
  `validation`, and so on.
-/

namespace CartCore

/-! ## Data model (`cart/models.py`) -/

/-- A row of `products.models.Product` as the cart app reads it: an id, a
`price` (`DecimalField`) and a `carbon_footprint` (`FloatField`), both
embedded as exact rationals. -/
structure Product where
  id : Nat
  price : ℚ
  carbon_footprint : ℚ
deriving DecidableEq, Repr

/-- A row of `cart.models.Cart`: `user` (nullable FK to `auth.User`) and
`session_key` (nullable `CharField`), plus a primary key.  Timestamps are
irrelevant to every claim and are omitted. -/
structure Cart where
  id : Nat
  user : Option Nat
  session_key : Option String
deriving DecidableEq, Repr

/-- A row of `cart.models.CartItem`: FK to its cart, FK to its product, and
a `PositiveIntegerField` quantity.  The `added_at` timestamp is omitted. -/
structure CartItem where
  id : Nat
  cart : Nat
  product : Nat
  quantity : Nat
deriving DecidableEq, Repr

/-- The database state: the product catalog plus the cart tables, with the
auto-increment counters for the two primary keys. -/
structure Store where
  products : List Product
  carts : List Cart
  cartItems : List CartItem
  nextCartId : Nat
  nextItemId : Nat
deriving DecidableEq, Repr

/-- `Product.objects.filter(id=pid).first()`. -/
def findProduct (s : Store) (pid : Nat) : Option Product :=
  s.products.find? fun p => p.id == pid

/-- The reverse relation `cart.items`: all `CartItem` rows whose FK is this
cart. -/
def itemsOf (s : Store) (cartId : Nat) : List CartItem :=
  s.cartItems.filter fun it => it.cart == cartId

/-- Unit price of a product id, `0` if the id is dangling (Django's FK
integrity makes the fallback unreachable for stored rows). -/
def priceOf (s : Store) (pid : Nat) : ℚ :=
  ((findProduct s pid).map Product.price).getD 0

/-- Per-unit carbon footprint of a product id, `0` if dangling. -/
def carbonOf (s : Store) (pid : Nat) : ℚ :=
  ((findProduct s pid).map Product.carbon_footprint).getD 0

/-- The ORM aggregate `Sum(...)` over `ℚ` expressions: SQL `SUM` of an empty
row set is `NULL`, i.e. `none`. -/
def sqlSumQ (l : List ℚ) : Option ℚ :=
  match l with
  | [] => none
  | _ => some l.sum

/-- The ORM aggregate `Sum(...)` over integer expressions. -/
def sqlSumN (l : List Nat) : Option Nat :=
  match l with
  | [] => none
  | _ => some l.sum

/-- `Cart.total_items`: `self.items.aggregate(total=Coalesce(Sum('quantity'), 0))`. -/
def Cart.total_items (s : Store) (c : Cart) : Nat :=
  (sqlSumN ((itemsOf s c.id).map CartItem.quantity)).getD 0

/-- `Cart.total_price`:
`Coalesce(Sum(F('quantity') * F('product__price')), Decimal('0.00'))`. -/
def Cart.total_price (s : Store) (c : Cart) : ℚ :=
  (sqlSumQ ((itemsOf s c.id).map fun it =>
    (it.quantity : ℚ) * priceOf s it.product)).getD 0

/-- `Cart.total_carbon_footprint`:
`Coalesce(Sum(F('quantity') * F('product__carbon_footprint')), 0.0)`. -/
def Cart.total_carbon_footprint (s : Store) (c : Cart) : ℚ :=
  (sqlSumQ ((itemsOf s c.id).map fun it =>
    (it.quantity : ℚ) * carbonOf s it.product)).getD 0

/-- `CartItem.total_price`: `self.product.price * self.quantity`. -/
def CartItem.total_price (s : Store) (it : CartItem) : ℚ :=
  priceOf s it.product * it.quantity

/-- `CartItem.total_carbon`: `self.product.carbon_footprint * self.quantity`. -/
def CartItem.total_carbon (s : Store) (it : CartItem) : ℚ :=
  carbonOf s it.product * it.quantity

/-! ## Aggregate lemmas -/

/-- `Sum` coalesced with `0` is the plain fold, `ℚ` version. -/
theorem sqlSumQ_getD (l : List ℚ) : (sqlSumQ l).getD 0 = l.sum := by
  cases l <;> simp [sqlSumQ]

/-- `Sum` coalesced with `0` is the plain fold, integer version. -/
theorem sqlSumN_getD (l : List Nat) : (sqlSumN l).getD 0 = l.sum := by
  cases l <;> simp [sqlSumN]

/-! ## Business errors (spec §7 taxonomy)

The views catch `BusinessException` and turn it into a rejected response;
the concrete exception subclasses live in the missing `services.py`, so the
kinds here follow the specification's §7 taxonomy, assigned by the condition
each check tests. -/

/-- A caller-surfaced business error: a kind from the §7 taxonomy plus a
human-readable message. -/
inductive BusinessError where
  | identityError (msg : String)
  | validationError (msg : String)
  | limitExceededError (msg : String)
  | notFoundError (msg : String)
  | emptyCartError (msg : String)
  | checkoutFailedError (msg : String)
deriving DecidableEq, Repr

/-- The message carried by a business error. -/
def BusinessError.msg : BusinessError → String
  | .identityError m => m
  | .validationError m => m
  | .limitExceededError m => m
  | .notFoundError m => m
  | .emptyCartError m => m
  | .checkoutFailedError m => m

/-- Tests whether an error is a `limitExceededError`. -/
def BusinessError.isLimit : BusinessError → Bool
  | .limitExceededError _ => true
  | _ => false

/-- Tests whether an error is a `validationError`. -/
def BusinessError.isValidation : BusinessError → Bool
  | .validationError _ => true
  | _ => false

/-- Tests whether an error is a `notFoundError`. -/
def BusinessError.isNotFound : BusinessError → Bool
  | .notFoundError _ => true
  | _ => false

/-! ## Request identity and cart resolution -/

/-- The identity a request carries: an optional authenticated user id
(`request.user` when `is_authenticated`) and an optional session key
(`request.session.session_key`). -/
structure Identity where
  user : Option Nat
  session_key : Option String
deriving DecidableEq, Repr

/-- `Cart.objects.filter(user=u).first()`. -/
def findCartByUser (s : Store) (u : Nat) : Option Cart :=
  s.carts.find? fun c => c.user == some u

/-- `Cart.objects.filter(user=None, session_key=k).first()`: lookup of the
anonymous cart keyed to a session token. -/
def findCartBySession (s : Store) (k : String) : Option Cart :=
  s.carts.find? fun c => c.user == none && c.session_key == some k

/-- Modelled from the spec: `CartService.get_cart` — the Cart Resolver of
§4.1 (`cart/services.py` is not in the available source).  If an
authenticated user id is present, find-or-create the cart keyed to that
user id, ignoring the session token; otherwise find-or-create the cart
keyed to the anonymous session token; fail with `IdentityError` when the
request carries neither. -/
def get_cart (s : Store) (ident : Identity) : Except BusinessError (Cart × Store) :=
  match ident.user with
  | some u =>
    match findCartByUser s u with
    | some c => .ok (c, s)
    | none =>
      let c : Cart := ⟨s.nextCartId, some u, none⟩
      .ok (c, { s with carts := s.carts ++ [c], nextCartId := s.nextCartId + 1 })
  | none =>
    match ident.session_key with
    | some k =>
      match findCartBySession s k with
      | some c => .ok (c, s)
      | none =>
        let c : Cart := ⟨s.nextCartId, none, some k⟩
        .ok (c, { s with carts := s.carts ++ [c], nextCartId := s.nextCartId + 1 })
    | none => .error (.identityError "No session key or user on request")

/-! ## Request validation (`cart/serializers.py`) -/

/-- `AddToCartSerializer` (from the source): `product_id` must name an
existing product (`validate_product_id`), `quantity` is an `IntegerField`
with `min_value=1` and `validate_quantity` rejects values above
`MAX_CART_QUANTITY` (the cap, whose value lives in the missing
`constants.py`, so it is a parameter here).  The fields are validated in
declaration order.  Per the §7 taxonomy the cap check is a per-product-cap
violation, hence `limitExceededError`; the other two are malformed input,
hence `validationError`. -/
def AddToCartSerializer.run (s : Store) (cap : Nat) (product_id : Nat)
    (quantity : Int) : Except BusinessError Unit :=
  if (findProduct s product_id).isNone then
    .error (.validationError "Product does not exist")
  else if quantity < 1 then
    .error (.validationError "Ensure this value is greater than or equal to 1.")
  else if (cap : Int) < quantity then
    .error (.limitExceededError "Cannot add more than MAX_CART_QUANTITY of the same product")
  else
    .ok ()

/-- `UpdateCartItemSerializer` (from the source): `quantity` is a signed
delta, an `IntegerField` with `min_value=-MAX_CART_QUANTITY` and
`max_value=MAX_CART_QUANTITY`, and `validate_quantity` rejects `0`. -/
def UpdateCartItemSerializer.run (cap : Nat) (quantity : Int) :
    Except BusinessError Unit :=
  if quantity < -(cap : Int) then
    .error (.validationError "Ensure this value is greater than or equal to -MAX_CART_QUANTITY.")
  else if (cap : Int) < quantity then
    .error (.validationError "Ensure this value is less than or equal to MAX_CART_QUANTITY.")
  else if quantity == 0 then
    .error (.validationError "Quantity delta cannot be 0")
  else
    .ok ()

/-! ## Line-item mutation helpers

The three row-level mutations every operation is built from: update one
row's quantity by primary key, delete one row by primary key, delete all
rows of a cart. -/

/-- `UPDATE cart_cartitem SET quantity = q WHERE id = itemId`. -/
def setQty (items : List CartItem) (itemId : Nat) (q : Nat) : List CartItem :=
  items.map fun j => if j.id == itemId then { j with quantity := q } else j

/-- `DELETE FROM cart_cartitem WHERE id = itemId`. -/
def delItem (items : List CartItem) (itemId : Nat) : List CartItem :=
  items.filter fun j => j.id != itemId

/-- `DELETE FROM cart_cartitem WHERE cart_id = cartId`. -/
def delCartItems (items : List CartItem) (cartId : Nat) : List CartItem :=
  items.filter fun j => j.cart != cartId

/-! ## Service operations

Each operation returns the caller-visible outcome together with the
resulting store; on a pre-resolution failure the input store is returned,
on a later failure the store after (at most) the lazy cart creation of the
resolver, with no line item touched — the views' `transaction.atomic` and
the §7 no-partial-application policy. -/

/-- Modelled from the spec: `CartService.add_to_cart` — §4.2 `addItem`
(`cart/services.py` is not in the available source).  The request is first
validated by `AddToCartSerializer` (source, `views.py` line 50), then the
cart is resolved; an existing row for the product has the quantity added to
it, bounded by the cap (`LimitExceededError` when exceeded, not a clamp);
otherwise a new row is created. -/
def add_to_cart (cap : Nat) (s : Store) (ident : Identity) (product_id : Nat)
    (quantity : Int) : (Except BusinessError CartItem) × Store :=
  match AddToCartSerializer.run s cap product_id quantity with
  | .error e => (.error e, s)
  | .ok _ =>
    match get_cart s ident with
    | .error e => (.error e, s)
    | .ok (cart, s1) =>
      match s1.cartItems.find? (fun it => it.cart == cart.id && it.product == product_id) with
      | some it =>
        if cap < it.quantity + quantity.toNat then
          (.error (.limitExceededError "Cannot add more than MAX_CART_QUANTITY of the same product"), s1)
        else
          (.ok { it with quantity := it.quantity + quantity.toNat },
           { s1 with cartItems := setQty s1.cartItems it.id (it.quantity + quantity.toNat) })
      | none =>
        (.ok ⟨s1.nextItemId, cart.id, product_id, quantity.toNat⟩,
         { s1 with
           cartItems := s1.cartItems ++ [⟨s1.nextItemId, cart.id, product_id, quantity.toNat⟩],
           nextItemId := s1.nextItemId + 1 })

/-- Modelled from the spec: `CartService.update_cart_item` — §4.2
`adjustItem` (`cart/services.py` is not in the available source).  The
delta is validated by `UpdateCartItemSerializer` (source, `views.py`
line 119), the item is looked up in the resolved cart only
(`NotFoundError` otherwise, including when the id exists under another
cart); a resulting quantity ≤ 0 deletes the row (`.ok none`), a resulting
quantity above the cap fails with `LimitExceededError` leaving the row
unchanged. -/
def update_cart_item (cap : Nat) (s : Store) (ident : Identity) (itemId : Nat)
    (delta : Int) : (Except BusinessError (Option CartItem)) × Store :=
  match UpdateCartItemSerializer.run cap delta with
  | .error e => (.error e, s)
  | .ok _ =>
    match get_cart s ident with
    | .error e => (.error e, s)
    | .ok (cart, s1) =>
      match s1.cartItems.find? (fun it => it.id == itemId && it.cart == cart.id) with
      | none => (.error (.notFoundError "Cart item not found"), s1)
      | some it =>
        if (it.quantity : Int) + delta ≤ 0 then
          (.ok none, { s1 with cartItems := delItem s1.cartItems it.id })
        else if (cap : Int) < (it.quantity : Int) + delta then
          (.error (.limitExceededError "Cannot keep more than MAX_CART_QUANTITY of the same product"), s1)
        else
          (.ok (some { it with quantity := ((it.quantity : Int) + delta).toNat }),
           { s1 with cartItems := setQty s1.cartItems it.id ((it.quantity : Int) + delta).toNat })

/-- Modelled from the spec: `CartService.remove_from_cart` — §4.2
`removeItem` (`cart/services.py` is not in the available source).  Deletes
the row unconditionally when it belongs to the resolved cart,
`NotFoundError` otherwise. -/
def remove_from_cart (s : Store) (ident : Identity) (itemId : Nat) :
    (Except BusinessError Unit) × Store :=
  match get_cart s ident with
  | .error e => (.error e, s)
  | .ok (cart, s1) =>
    match s1.cartItems.find? (fun it => it.id == itemId && it.cart == cart.id) with
    | none => (.error (.notFoundError "Cart item not found"), s1)
    | some it => (.ok (), { s1 with cartItems := delItem s1.cartItems it.id })

/-- Modelled from the spec: `CartService.clear_cart` — §4.2 `clear`
(`cart/services.py` is not in the available source).  Deletes every row of
the resolved cart; idempotent. -/
def clear_cart (s : Store) (ident : Identity) : (Except BusinessError Unit) × Store :=
  match get_cart s ident with
  | .error e => (.error e, s)
  | .ok (cart, s1) => (.ok (), { s1 with cartItems := delCartItems s1.cartItems cart.id })

/-- An order receipt as surfaced by `CheckoutView.post`: the external Order
service's id, number and status, plus the totals this core computed and
forwarded. -/
structure Order where
  id : Nat
  order_number : Nat
  total_amount : ℚ
  total_carbon_footprint : ℚ
  status : String
deriving DecidableEq, Repr

/-- Modelled from the spec: `CartService.checkout` — §4.4 (the service and
the external Order service are not in the available source).  `EmptyCartError`
on an empty cart; otherwise the totals are computed from the current line
items and catalog data and forwarded; `orderResult` is the opaque outcome
of the external Order service (`some (orderId, orderNumber, status)` on
acceptance, `none` on failure); the cart is cleared exactly on success,
left untouched with `CheckoutFailedError` on failure. -/
def checkout (s : Store) (ident : Identity) (shipping_address : String)
    (orderResult : Option (Nat × Nat × String)) : (Except BusinessError Order) × Store :=
  match get_cart s ident with
  | .error e => (.error e, s)
  | .ok (cart, s1) =>
    if (itemsOf s1 cart.id).isEmpty then
      (.error (.emptyCartError "Cart is empty"), s1)
    else
      match orderResult with
      | some (oid, onum, st) =>
        (.ok ⟨oid, onum, Cart.total_price s1 cart, Cart.total_carbon_footprint s1 cart, st⟩,
         { s1 with cartItems := delCartItems s1.cartItems cart.id })
      | none => (.error (.checkoutFailedError ("Order creation failed for " ++ shipping_address)), s1)

/-- One step of the merge fold of §4.3: fold a source row into the
accumulated item table and warning list.  A destination row for the same
product absorbs the quantity, clamped to the cap with a warning naming the
product and the dropped amount; otherwise the source row is re-parented to
the destination cart verbatim. -/
def mergeStep (cap : Nat) (destId : Nat) (acc : List CartItem × List String)
    (srcIt : CartItem) : List CartItem × List String :=
  match acc.1.find? (fun d => d.cart == destId && d.product == srcIt.product) with
  | some d =>
    if cap < d.quantity + srcIt.quantity then
      (setQty acc.1 d.id cap,
       acc.2 ++ ["Item " ++ toString srcIt.product ++ ": dropped "
         ++ toString (d.quantity + srcIt.quantity - cap) ++ " units over the limit"])
    else
      (setQty acc.1 d.id (d.quantity + srcIt.quantity), acc.2)
  | none => (acc.1 ++ [{ srcIt with cart := destId }], acc.2)

/-- Modelled from the spec: `CartService.merge_carts` — the Merge Engine of
§4.3 (`cart/services.py` is not in the available source).  Resolve the
destination cart for the user (created if absent); when no anonymous cart
exists for the old session token the merge is a no-op returning the
destination cart and no warnings; otherwise every source row is moved or
combined (clamped to the cap with a warning on conflict) and the source
cart is deleted. -/
def merge_carts (cap : Nat) (s : Store) (userId : Nat) (old_key : String) :
    (Except BusinessError (Cart × List String)) × Store :=
  match get_cart s ⟨some userId, none⟩ with
  | .error e => (.error e, s)
  | .ok (dest, s1) =>
    match findCartBySession s1 old_key with
    | none => (.ok (dest, []), s1)
    | some src =>
      (.ok (dest, ((itemsOf s1 src.id).foldl (mergeStep cap dest.id)
          (s1.cartItems.filter (fun j => j.cart != src.id), [])).2),
       { s1 with
         cartItems := ((itemsOf s1 src.id).foldl (mergeStep cap dest.id)
           (s1.cartItems.filter (fun j => j.cart != src.id), [])).1,
         carts := s1.carts.filter (fun c => c.id != src.id) })

/-! ## The operation alphabet -/

/-- One cart-mutating request, as dispatched by the views: the §4
operations with their request payloads. -/
inductive CartOp where
  | add (product_id : Nat) (quantity : Int)
  | adjust (itemId : Nat) (delta : Int)
  | remove (itemId : Nat)
  | clear
  | checkoutOp (shipping_address : String) (orderResult : Option (Nat × Nat × String))
  | mergeOp (old_key : String)
deriving DecidableEq, Repr

/-- Tests whether an operation is an add or an adjust. -/
def CartOp.isAddAdjust : CartOp → Bool
  | .add _ _ => true
  | .adjust _ _ => true
  | _ => false

/-- Dispatch one operation against the store for a request identity,
keeping only the resulting store and the success/error outcome.  The merge
endpoint requires an authenticated user (`IsAuthenticated` in
`views.py`). -/
def applyOp (cap : Nat) (ident : Identity) (s : Store) : CartOp → (Except BusinessError Unit) × Store
  | .add pid q =>
    let r := add_to_cart cap s ident pid q
    (r.1.map fun _ => (), r.2)
  | .adjust itemId d =>
    let r := update_cart_item cap s ident itemId d
    (r.1.map fun _ => (), r.2)
  | .remove itemId =>
    let r := remove_from_cart s ident itemId
    (r.1.map fun _ => (), r.2)
  | .clear => clear_cart s ident
  | .checkoutOp addr res =>
    let r := checkout s ident addr res
    (r.1.map fun _ => (), r.2)
  | .mergeOp k =>
    match ident.user with
    | some u =>
      let r := merge_carts cap s u k
      (r.1.map fun _ => (), r.2)
    | none => (.error (.identityError "Authentication required"), s)

/-- The store after a sequence of operations. -/
def applyOps (cap : Nat) (ident : Identity) (s : Store) (ops : List CartOp) : Store :=
  ops.foldl (fun t op => (applyOp cap ident t op).2) s

/-! ## Session state, middleware and the merge endpoint
(`core/middleware.py`, `cart/views.py`) -/

/-- The slice of `request.session` the cart code reads and writes: the
session key itself and the remembered prior anonymous key
(`old_session_key`; `none` means the key is absent from the session). -/
structure SessionState where
  session_key : Option String
  old_session_key : Option String
deriving DecidableEq, Repr

/-- Python truthiness of an optional string: `None` and `""` are falsy. -/
def strFalsy : Option String → Bool
  | none => true
  | some k => k == ""

/-- The `request.session.save()` step of the middleware: create a session
key (the backend-generated `newKey`) when the current one is falsy. -/
def ensureSession (newKey : String) (sess : SessionState) : SessionState :=
  if strFalsy sess.session_key then { sess with session_key := some newKey }
  else sess

/-- `StoreOldSessionMiddleware.__call__` (from the source,
`core/middleware.py`).  `user` is `request.user`: `none` when the request
has no user attribute, `some b` when it has one with `is_authenticated = b`.
The middleware first creates a session key when the current one is falsy,
then, for a present-and-unauthenticated user, stores the current session
key as `old_session_key` unless one is already stored. -/
def storeOldSessionCall (newKey : String) (user : Option Bool)
    (sess : SessionState) : SessionState :=
  match user with
  | some isAuth =>
    if isAuth then ensureSession newKey sess
    else if (ensureSession newKey sess).old_session_key = none then
      { ensureSession newKey sess with
        old_session_key := (ensureSession newKey sess).session_key }
    else ensureSession newKey sess
  | none => ensureSession newKey sess

/-- `MergeCartView.post` (from the source, `cart/views.py`), parametric in
the merge service it calls — `CartService.merge_carts` lives in the missing
`services.py`, so `svc` stands for it.  A falsy stored `old_session_key`
(absent per `session.get`, or empty) is rejected before the service runs;
on service success the stored key is popped from the session; on a business
error the session is left untouched. -/
def mergeCartViewPost
    (svc : Store → Nat → String → (Except BusinessError (Cart × List String)) × Store)
    (s : Store) (sess : SessionState) (userId : Nat) :
    (Except BusinessError (Cart × List String)) × SessionState × Store :=
  match sess.old_session_key with
  | none => (.error (.validationError "No anonymous cart to merge"), sess, s)
  | some k =>
    if k == "" then (.error (.validationError "No anonymous cart to merge"), sess, s)
    else
      match svc s userId k with
      | (.ok r, s1) => (.ok r, { sess with old_session_key := none }, s1)
      | (.error e, s1) => (.error e, sess, s1)

/-! ## Store invariants -/

/-- A persisted cart carries exactly one identity: an authenticated user
id with no session key, or a session key with no user. -/
def identityOk (c : Cart) : Prop :=
  (c.user ≠ none ∧ c.session_key = none) ∨ (c.user = none ∧ c.session_key ≠ none)

/-- Every persisted cart has exactly one identity. -/
def cartsIdentityOk (s : Store) : Prop :=
  ∀ c ∈ s.carts, identityOk c

/-- Primary keys of carts are unique and below the auto-increment
counter. -/
def cartIdsOk (s : Store) : Prop :=
  (s.carts.map Cart.id).Nodup ∧ ∀ c ∈ s.carts, c.id < s.nextCartId

/-- Primary keys of cart items are unique and below the auto-increment
counter. -/
def itemIdsOk (s : Store) : Prop :=
  (s.cartItems.map CartItem.id).Nodup ∧ ∀ it ∈ s.cartItems, it.id < s.nextItemId

/-- At most one line item per (cart, product) pair. -/
def uniquePerCart (s : Store) : Prop :=
  ∀ a ∈ s.cartItems, ∀ b ∈ s.cartItems, a.cart = b.cart → a.product = b.product → a = b

/-- No stored line item has quantity 0 (the field is a
`PositiveIntegerField` and a row reaching 0 is deleted). -/
def qtyPos (s : Store) : Prop :=
  ∀ it ∈ s.cartItems, 1 ≤ it.quantity

/-- The well-formedness invariant of the store: key discipline on both
tables, one identity per cart, one row per (cart, product), and positive
quantities. -/
def WF (s : Store) : Prop :=
  cartIdsOk s ∧ itemIdsOk s ∧ cartsIdentityOk s ∧ uniquePerCart s ∧ qtyPos s

instance (c : Cart) : Decidable (identityOk c) := by
  unfold identityOk; infer_instance

instance (s : Store) : Decidable (cartsIdentityOk s) := by
  unfold cartsIdentityOk; infer_instance

instance (s : Store) : Decidable (cartIdsOk s) := by
  unfold cartIdsOk; infer_instance

instance (s : Store) : Decidable (itemIdsOk s) := by
  unfold itemIdsOk; infer_instance

instance (s : Store) : Decidable (uniquePerCart s) := by
  unfold uniquePerCart; infer_instance

instance (s : Store) : Decidable (qtyPos s) := by
  unfold qtyPos; infer_instance

instance (s : Store) : Decidable (WF s) := by
  unfold WF; infer_instance

/-! ## Resolver lemmas -/

/-- What a successful resolution does to the store: products, line items
and the item counter are untouched; the cart table is either unchanged or
extended by exactly the returned cart, which is fresh and carries exactly
one identity. -/
theorem get_cart_ok {s : Store} {ident : Identity} {c : Cart} {s1 : Store}
    (h : get_cart s ident = .ok (c, s1)) :
    s1.products = s.products ∧ s1.cartItems = s.cartItems ∧
      s1.nextItemId = s.nextItemId ∧
      ((s1.carts = s.carts ∧ s1.nextCartId = s.nextCartId) ∨
        (s1.carts = s.carts ++ [c] ∧ c.id = s.nextCartId ∧
          s1.nextCartId = s.nextCartId + 1 ∧ identityOk c)) := by
  unfold get_cart at h
  repeat' split at h
  all_goals cases h
  all_goals refine ⟨rfl, rfl, rfl, ?_⟩
  all_goals
    first
    | exact Or.inl ⟨rfl, rfl⟩
    | exact Or.inr ⟨rfl, rfl, rfl, by simp [identityOk]⟩

/-- A resolution failure leaves no trace: `get_cart` only errors before
touching the store. -/
theorem get_cart_error {s : Store} {ident : Identity} {e : BusinessError}
    (h : get_cart s ident = .error e) : e = .identityError "No session key or user on request" := by
  unfold get_cart at h
  repeat' split at h
  all_goals cases h
  all_goals rfl

/-! ## Row-mutation lemmas -/

/-- The pointwise function of `setQty` keeps the primary key. -/
theorem setQty_point_id (itemId q : Nat) (j : CartItem) :
    (if j.id == itemId then { j with quantity := q } else j).id = j.id := by
  split <;> rfl

/-- The pointwise function of `setQty` keeps the cart FK. -/
theorem setQty_point_cart (itemId q : Nat) (j : CartItem) :
    (if j.id == itemId then { j with quantity := q } else j).cart = j.cart := by
  split <;> rfl

/-- The pointwise function of `setQty` keeps the product FK. -/
theorem setQty_point_product (itemId q : Nat) (j : CartItem) :
    (if j.id == itemId then { j with quantity := q } else j).product = j.product := by
  split <;> rfl

/-- `setQty` leaves the list of primary keys unchanged. -/
theorem setQty_map_id (items : List CartItem) (itemId q : Nat) :
    (setQty items itemId q).map CartItem.id = items.map CartItem.id := by
  unfold setQty
  rw [List.map_map]
  exact List.map_congr_left fun j _ => setQty_point_id itemId q j

/-- `setQty` preserves the one-row-per-(cart, product) discipline. -/
theorem uniquePerCart_setQty {items : List CartItem}
    (h : ∀ a ∈ items, ∀ b ∈ items, a.cart = b.cart → a.product = b.product → a = b)
    (itemId q : Nat) :
    ∀ a ∈ setQty items itemId q, ∀ b ∈ setQty items itemId q,
      a.cart = b.cart → a.product = b.product → a = b := by
  intro a2 ha2 b2 hb2 hc hp
  obtain ⟨a, ha, rfl⟩ := List.mem_map.mp ha2
  obtain ⟨b, hb, rfl⟩ := List.mem_map.mp hb2
  rw [setQty_point_cart, setQty_point_cart] at hc
  rw [setQty_point_product, setQty_point_product] at hp
  rw [h a ha b hb hc hp]

/-- `setQty` to a positive quantity keeps all quantities positive. -/
theorem qtyPos_setQty {items : List CartItem} {q : Nat}
    (h : ∀ j ∈ items, 1 ≤ j.quantity) (hq : 1 ≤ q) (itemId : Nat) :
    ∀ j ∈ setQty items itemId q, 1 ≤ j.quantity := by
  intro j2 hj2
  obtain ⟨j, hj, rfl⟩ := List.mem_map.mp hj2
  split
  · exact hq
  · exact h j hj

/-- A filtered item table is a sub-table: its primary keys stay unique. -/
theorem nodup_id_filter {items : List CartItem}
    (h : (items.map CartItem.id).Nodup) (p : CartItem → Bool) :
    ((items.filter p).map CartItem.id).Nodup :=
  List.Nodup.sublist (List.Sublist.map CartItem.id (List.filter_sublist items)) h

/-- Filtering keeps all quantities positive. -/
theorem qtyPos_filter {items : List CartItem}
    (h : ∀ j ∈ items, 1 ≤ j.quantity) (p : CartItem → Bool) :
    ∀ j ∈ items.filter p, 1 ≤ j.quantity :=
  fun j hj => h j (List.mem_of_mem_filter hj)

/-! ## Serializer lemmas -/

/-- What passing `AddToCartSerializer` means: the product exists and the
quantity is between 1 and the cap. -/
theorem addSerializer_ok {s : Store} {cap pid : Nat} {q : Int}
    (h : AddToCartSerializer.run s cap pid q = .ok ()) :
    (findProduct s pid).isSome = true ∧ 1 ≤ q ∧ q ≤ (cap : Int) := by
  unfold AddToCartSerializer.run at h
  split at h
  · cases h
  · split at h
    · cases h
    · split at h
      · cases h
      · rename_i h1 h2 h3
        refine ⟨?_, by omega, by omega⟩
        cases hfp : findProduct s pid with
        | none => exact absurd (by simp [hfp]) h1
        | some p => simp [hfp]

/-- What passing `UpdateCartItemSerializer` means: the delta is a non-zero
signed integer of magnitude at most the cap. -/
theorem updSerializer_ok {cap : Nat} {d : Int}
    (h : UpdateCartItemSerializer.run cap d = .ok ()) :
    -(cap : Int) ≤ d ∧ d ≤ (cap : Int) ∧ d ≠ 0 := by
  unfold UpdateCartItemSerializer.run at h
  split at h
  · cases h
  · split at h
    · cases h
    · split at h
      · cases h
      · rename_i h1 h2 h3
        simp only [beq_iff_eq] at h3
        exact ⟨by omega, by omega, h3⟩

/-! ## Quantity positivity is preserved by every operation -/

/-- Adding preserves positive quantities: a fresh row gets the validated
quantity (≥ 1), an existing row only grows. -/
theorem qtyPos_add (cap : Nat) (s : Store) (ident : Identity) (pid : Nat)
    (q : Int) (h : qtyPos s) : qtyPos (add_to_cart cap s ident pid q).2 := by
  unfold add_to_cart
  split
  · exact h
  · rename_i v hser
    cases v
    split
    · exact h
    · rename_i cart s1 hres
      have h1 : qtyPos s1 := fun it hit => h it ((get_cart_ok hres).2.1 ▸ hit)
      obtain ⟨-, hq1, -⟩ := addSerializer_ok hser
      split
      · rename_i it hfind
        split
        · exact h1
        · intro j hj
          refine qtyPos_setQty h1 ?_ it.id j hj
          have := h1 it (List.mem_of_find?_eq_some hfind)
          omega
      · intro j hj
        rcases List.mem_append.mp hj with hj | hj
        · exact h1 j hj
        · simp only [List.mem_singleton] at hj
          subst hj
          show 1 ≤ q.toNat
          omega

/-- Adjusting preserves positive quantities: a non-positive result deletes
the row, otherwise the stored quantity is the positive result. -/
theorem qtyPos_adjust (cap : Nat) (s : Store) (ident : Identity) (itemId : Nat)
    (d : Int) (h : qtyPos s) : qtyPos (update_cart_item cap s ident itemId d).2 := by
  unfold update_cart_item
  split
  · exact h
  · rename_i v hser
    cases v
    split
    · exact h
    · rename_i cart s1 hres
      have h1 : qtyPos s1 := fun it hit => h it ((get_cart_ok hres).2.1 ▸ hit)
      split
      · exact h1
      · rename_i it hfind
        split
        · exact fun j hj => qtyPos_filter h1 _ j hj
        · split
          · exact h1
          · rename_i hle hlt
            intro j hj
            refine qtyPos_setQty h1 ?_ it.id j hj
            omega

/-- Removal preserves positive quantities. -/
theorem qtyPos_remove (s : Store) (ident : Identity) (itemId : Nat)
    (h : qtyPos s) : qtyPos (remove_from_cart s ident itemId).2 := by
  unfold remove_from_cart
  split
  · exact h
  · rename_i cart s1 hres
    have h1 : qtyPos s1 := fun it hit => h it ((get_cart_ok hres).2.1 ▸ hit)
    split
    · exact h1
    · exact fun j hj => qtyPos_filter h1 _ j hj

/-- Clearing preserves positive quantities. -/
theorem qtyPos_clear (s : Store) (ident : Identity) (h : qtyPos s) :
    qtyPos (clear_cart s ident).2 := by
  unfold clear_cart
  split
  · exact h
  · rename_i cart s1 hres
    have h1 : qtyPos s1 := fun it hit => h it ((get_cart_ok hres).2.1 ▸ hit)
    exact fun j hj => qtyPos_filter h1 _ j hj

/-- Checkout preserves positive quantities. -/
theorem qtyPos_checkout (s : Store) (ident : Identity) (addr : String)
    (res : Option (Nat × Nat × String)) (h : qtyPos s) :
    qtyPos (checkout s ident addr res).2 := by
  unfold checkout
  split
  · exact h
  · rename_i cart s1 hres
    have h1 : qtyPos s1 := fun it hit => h it ((get_cart_ok hres).2.1 ▸ hit)
    split
    · exact h1
    · split
      · exact fun j hj => qtyPos_filter h1 _ j hj
      · exact h1

/-- The merge fold preserves positive quantities, as long as the cap is at
least 1 (clamping writes `cap`) and every source row is positive. -/
theorem qtyPos_mergeFold (cap destId : Nat) (hcap : 1 ≤ cap)
    (src : List CartItem) :
    ∀ acc : List CartItem × List String, (∀ it ∈ src, 1 ≤ it.quantity) →
      (∀ j ∈ acc.1, 1 ≤ j.quantity) →
      ∀ j ∈ (src.foldl (mergeStep cap destId) acc).1, 1 ≤ j.quantity := by
  induction src with
  | nil => exact fun acc _ hacc => hacc
  | cons it rest ih =>
    intro acc hsrc hacc
    simp only [List.foldl_cons]
    refine ih _ (fun x hx => hsrc x (List.mem_cons_of_mem _ hx)) ?_
    unfold mergeStep
    split
    · rename_i d hd
      have hdm : d ∈ acc.1 := List.mem_of_find?_eq_some hd
      have hdq := hacc d hdm
      split
      · exact fun j hj => qtyPos_setQty hacc hcap d.id j hj
      · exact fun j hj => qtyPos_setQty hacc (by omega) d.id j hj
    · intro j hj
      rcases List.mem_append.mp hj with hj | hj
      · exact hacc j hj
      · simp only [List.mem_singleton] at hj
        subst hj
        exact hsrc it (List.mem_cons_self _ _)

/-- Merging preserves positive quantities when the cap is at least 1. -/
theorem qtyPos_merge (cap : Nat) (s : Store) (userId : Nat) (old_key : String)
    (hcap : 1 ≤ cap) (h : qtyPos s) : qtyPos (merge_carts cap s userId old_key).2 := by
  unfold merge_carts
  split
  · exact h
  · rename_i dest s1 hres
    have h1 : qtyPos s1 := fun it hit => h it ((get_cart_ok hres).2.1 ▸ hit)
    split
    · exact h1
    · rename_i src hsrcCart
      intro j hj
      refine qtyPos_mergeFold cap dest.id hcap (itemsOf s1 src.id) _
        (fun x hx => h1 x (List.mem_of_mem_filter hx)) (qtyPos_filter h1 _) j hj

/-- Every dispatched operation preserves positive quantities when the cap
is at least 1. -/
theorem qtyPos_applyOp (cap : Nat) (ident : Identity) (s : Store) (op : CartOp)
    (hcap : 1 ≤ cap) (h : qtyPos s) : qtyPos (applyOp cap ident s op).2 := by
  cases op with
  | add pid q => exact qtyPos_add cap s ident pid q h
  | adjust itemId d => exact qtyPos_adjust cap s ident itemId d h
  | remove itemId => exact qtyPos_remove s ident itemId h
  | clear => exact qtyPos_clear s ident h
  | checkoutOp addr res => exact qtyPos_checkout s ident addr res h
  | mergeOp k =>
    simp only [applyOp]
    cases ident.user with
    | some u => exact qtyPos_merge cap s u k hcap h
    | none => exact h

/-- Positive quantities are an invariant of arbitrary operation
sequences. -/
theorem qtyPos_applyOps (cap : Nat) (ident : Identity) (s : Store)
    (ops : List CartOp) (hcap : 1 ≤ cap) (h : qtyPos s) :
    qtyPos (applyOps cap ident s ops) := by
  induction ops generalizing s with
  | nil => exact h
  | cons op rest ih =>
    simp only [applyOps, List.foldl_cons]
    exact ih _ (qtyPos_applyOp cap ident s op hcap h)

/-! ## Row uniqueness is preserved by add and adjust -/

/-- Filtering preserves the one-row-per-(cart, product) discipline. -/
theorem uniquePerCart_filter {items : List CartItem}
    (h : ∀ a ∈ items, ∀ b ∈ items, a.cart = b.cart → a.product = b.product → a = b)
    (p : CartItem → Bool) :
    ∀ a ∈ items.filter p, ∀ b ∈ items.filter p,
      a.cart = b.cart → a.product = b.product → a = b :=
  fun a ha b hb hc hp =>
    h a (List.mem_of_mem_filter ha) b (List.mem_of_mem_filter hb) hc hp

/-- `add_to_cart` keeps at most one row per (cart, product): an existing
row is updated in place, and a row is created only when none matched. -/
theorem uniquePerCart_add (cap : Nat) (s : Store) (ident : Identity)
    (pid : Nat) (q : Int) (h : uniquePerCart s) :
    uniquePerCart (add_to_cart cap s ident pid q).2 := by
  unfold add_to_cart
  split
  · exact h
  · rename_i v hser
    cases v
    split
    · exact h
    · rename_i cart s1 hres
      have h1 : uniquePerCart s1 := by
        intro a ha b hb
        rw [(get_cart_ok hres).2.1] at ha hb
        exact h a ha b hb
      split
      · rename_i it hfind
        split
        · exact h1
        · exact uniquePerCart_setQty h1 it.id _
      · rename_i hfind
        have hnone := List.find?_eq_none.mp hfind
        intro a ha b hb hc hp
        rcases List.mem_append.mp ha with ha | ha <;>
          rcases List.mem_append.mp hb with hb | hb
        · exact h1 a ha b hb hc hp
        · simp only [List.mem_singleton] at hb
          subst hb
          exact absurd (by simp [hc, hp]) (hnone a ha)
        · simp only [List.mem_singleton] at ha
          subst ha
          exact absurd (by simp [hc.symm, hp.symm]) (hnone b hb)
        · simp only [List.mem_singleton] at ha hb
          rw [ha, hb]

/-- `update_cart_item` keeps at most one row per (cart, product): it only
rewrites one row's quantity in place or deletes it. -/
theorem uniquePerCart_adjust (cap : Nat) (s : Store) (ident : Identity)
    (itemId : Nat) (d : Int) (h : uniquePerCart s) :
    uniquePerCart (update_cart_item cap s ident itemId d).2 := by
  unfold update_cart_item
  split
  · exact h
  · rename_i v hser
    cases v
    split
    · exact h
    · rename_i cart s1 hres
      have h1 : uniquePerCart s1 := by
        intro a ha b hb
        rw [(get_cart_ok hres).2.1] at ha hb
        exact h a ha b hb
      split
      · exact h1
      · rename_i it hfind
        split
        · exact uniquePerCart_filter h1 _
        · split
          · exact h1
          · exact uniquePerCart_setQty h1 it.id _

/-- Row uniqueness is an invariant of add/adjust sequences. -/
theorem uniquePerCart_addAdjust_ops (cap : Nat) (ident : Identity)
    (s : Store) (ops : List CartOp) (h : uniquePerCart s)
    (hops : ∀ op ∈ ops, op.isAddAdjust = true) :
    uniquePerCart (applyOps cap ident s ops) := by
  induction ops generalizing s with
  | nil => exact h
  | cons op rest ih =>
    simp only [applyOps, List.foldl_cons]
    refine ih _ ?_ fun o ho => hops o (List.mem_cons_of_mem _ ho)
    have hop := hops op (List.mem_cons_self _ _)
    cases op with
    | add pid q => exact uniquePerCart_add cap s ident pid q h
    | adjust itemId d => exact uniquePerCart_adjust cap s ident itemId d h
    | remove itemId => cases hop
    | clear => cases hop
    | checkoutOp addr res => cases hop
    | mergeOp k => cases hop

/-! ## Cart rows after an operation -/

/-- Every cart row present after a successful resolution is either an
original row or the freshly created cart, which carries exactly one
identity and the fresh primary key. -/
theorem carts_after_resolve {s : Store} {ident : Identity} {c : Cart}
    {s1 : Store} (h : get_cart s ident = .ok (c, s1)) :
    ∀ c2 ∈ s1.carts, c2 ∈ s.carts ∨ (identityOk c2 ∧ c2.id = s.nextCartId) := by
  intro c2 hc2
  rcases (get_cart_ok h).2.2.2 with ⟨hcs, -⟩ | ⟨hcs, hcid, -, hok⟩
  · exact Or.inl (hcs ▸ hc2)
  · rw [hcs] at hc2
    rcases List.mem_append.mp hc2 with h2 | h2
    · exact Or.inl h2
    · simp only [List.mem_singleton] at h2
      subst h2
      exact Or.inr ⟨hok, hcid⟩

/-- Every cart row present after any dispatched operation is either an
original row, kept verbatim, or a freshly created cart with exactly one
identity: no operation rewrites an existing cart's identity. -/
theorem carts_applyOp (cap : Nat) (ident : Identity) (s : Store) (op : CartOp) :
    ∀ c2 ∈ (applyOp cap ident s op).2.carts,
      c2 ∈ s.carts ∨ (identityOk c2 ∧ c2.id = s.nextCartId) := by
  cases op with
  | add pid q =>
    show ∀ c2 ∈ (add_to_cart cap s ident pid q).2.carts, _
    unfold add_to_cart
    split
    · exact fun c2 h2 => Or.inl h2
    · rename_i v hser
      cases v
      split
      · exact fun c2 h2 => Or.inl h2
      · rename_i cart s1 hres
        split
        · rename_i it hfind
          split
          · exact fun c2 h2 => carts_after_resolve hres c2 h2
          · exact fun c2 h2 => carts_after_resolve hres c2 h2
        · exact fun c2 h2 => carts_after_resolve hres c2 h2
  | adjust itemId d =>
    show ∀ c2 ∈ (update_cart_item cap s ident itemId d).2.carts, _
    unfold update_cart_item
    split
    · exact fun c2 h2 => Or.inl h2
    · rename_i v hser
      cases v
      split
      · exact fun c2 h2 => Or.inl h2
      · rename_i cart s1 hres
        split
        · exact fun c2 h2 => carts_after_resolve hres c2 h2
        · rename_i it hfind
          split
          · exact fun c2 h2 => carts_after_resolve hres c2 h2
          · split
            · exact fun c2 h2 => carts_after_resolve hres c2 h2
            · exact fun c2 h2 => carts_after_resolve hres c2 h2
  | remove itemId =>
    show ∀ c2 ∈ (remove_from_cart s ident itemId).2.carts, _
    unfold remove_from_cart
    split
    · exact fun c2 h2 => Or.inl h2
    · rename_i cart s1 hres
      split
      · exact fun c2 h2 => carts_after_resolve hres c2 h2
      · exact fun c2 h2 => carts_after_resolve hres c2 h2
  | clear =>
    show ∀ c2 ∈ (clear_cart s ident).2.carts, _
    unfold clear_cart
    split
    · exact fun c2 h2 => Or.inl h2
    · rename_i cart s1 hres
      exact fun c2 h2 => carts_after_resolve hres c2 h2
  | checkoutOp addr res =>
    show ∀ c2 ∈ (checkout s ident addr res).2.carts, _
    unfold checkout
    split
    · exact fun c2 h2 => Or.inl h2
    · rename_i cart s1 hres
      split
      · exact fun c2 h2 => carts_after_resolve hres c2 h2
      · split
        · exact fun c2 h2 => carts_after_resolve hres c2 h2
        · exact fun c2 h2 => carts_after_resolve hres c2 h2
  | mergeOp k =>
    simp only [applyOp]
    cases ident.user with
    | some u =>
      show ∀ c2 ∈ (merge_carts cap s u k).2.carts, _
      unfold merge_carts
      split
      · exact fun c2 h2 => Or.inl h2
      · rename_i dest s1 hres
        split
        · exact fun c2 h2 => carts_after_resolve hres c2 h2
        · exact fun c2 h2 => carts_after_resolve hres c2 (List.mem_of_mem_filter h2)
    | none => exact fun c2 h2 => Or.inl h2

/-! ## Error outcomes leave the store unchanged -/

/-- Whether an operation outcome is a rejected (error) outcome. -/
def isErr {ε α : Type} : Except ε α → Bool
  | .error _ => true
  | .ok _ => false

/-- Discarding the payload keeps the success/error status. -/
theorem isErr_map {ε α β : Type} (f : α → β) (e : Except ε α) :
    isErr (Except.map f e) = isErr e := by
  cases e <;> rfl

/-- Resolution never loses a cart row. -/
theorem carts_subset_resolve {s : Store} {ident : Identity} {c : Cart}
    {s1 : Store} (h : get_cart s ident = .ok (c, s1)) :
    ∀ c0 ∈ s.carts, c0 ∈ s1.carts := by
  intro c0 h0
  rcases (get_cart_ok h).2.2.2 with ⟨hcs, -⟩ | ⟨hcs, -, -, -⟩
  · rw [hcs]; exact h0
  · rw [hcs]; exact List.mem_append_left _ h0

/-- The store after an operation is unchanged-up-to-lazy-cart-creation
whenever the outcome is an error. -/
def errUnchanged (s t : Store) : Prop :=
  t.cartItems = s.cartItems ∧ ∀ c ∈ s.carts, c ∈ t.carts

/-- Either `add_to_cart` succeeds, or the line items are untouched and
every cart row survives. -/
theorem add_cases (cap : Nat) (s : Store) (ident : Identity) (pid : Nat)
    (q : Int) :
    isErr (add_to_cart cap s ident pid q).1 = false ∨
      errUnchanged s (add_to_cart cap s ident pid q).2 := by
  unfold add_to_cart
  split
  · exact Or.inr ⟨rfl, fun c h => h⟩
  · rename_i v hser
    cases v
    split
    · exact Or.inr ⟨rfl, fun c h => h⟩
    · rename_i cart s1 hres
      have hbase : errUnchanged s s1 := ⟨(get_cart_ok hres).2.1, carts_subset_resolve hres⟩
      split
      · split
        · exact Or.inr hbase
        · exact Or.inl rfl
      · exact Or.inl rfl

/-- Either `update_cart_item` succeeds, or the line items are untouched and
every cart row survives. -/
theorem adjust_cases (cap : Nat) (s : Store) (ident : Identity) (itemId : Nat)
    (d : Int) :
    isErr (update_cart_item cap s ident itemId d).1 = false ∨
      errUnchanged s (update_cart_item cap s ident itemId d).2 := by
  unfold update_cart_item
  split
  · exact Or.inr ⟨rfl, fun c h => h⟩
  · rename_i v hser
    cases v
    split
    · exact Or.inr ⟨rfl, fun c h => h⟩
    · rename_i cart s1 hres
      have hbase : errUnchanged s s1 := ⟨(get_cart_ok hres).2.1, carts_subset_resolve hres⟩
      split
      · exact Or.inr hbase
      · split
        · exact Or.inl rfl
        · split
          · exact Or.inr hbase
          · exact Or.inl rfl

/-- Either `remove_from_cart` succeeds, or the line items are untouched and
every cart row survives. -/
theorem remove_cases (s : Store) (ident : Identity) (itemId : Nat) :
    isErr (remove_from_cart s ident itemId).1 = false ∨
      errUnchanged s (remove_from_cart s ident itemId).2 := by
  unfold remove_from_cart
  split
  · exact Or.inr ⟨rfl, fun c h => h⟩
  · rename_i cart s1 hres
    have hbase : errUnchanged s s1 := ⟨(get_cart_ok hres).2.1, carts_subset_resolve hres⟩
    split
    · exact Or.inr hbase
    · exact Or.inl rfl

/-- Either `clear_cart` succeeds, or the store is untouched. -/
theorem clear_cases (s : Store) (ident : Identity) :
    isErr (clear_cart s ident).1 = false ∨ errUnchanged s (clear_cart s ident).2 := by
  unfold clear_cart
  split
  · exact Or.inr ⟨rfl, fun c h => h⟩
  · exact Or.inl rfl

/-- Either `checkout` succeeds, or the line items are untouched and every
cart row survives. -/
theorem checkout_cases (s : Store) (ident : Identity) (addr : String)
    (res : Option (Nat × Nat × String)) :
    isErr (checkout s ident addr res).1 = false ∨
      errUnchanged s (checkout s ident addr res).2 := by
  unfold checkout
  split
  · exact Or.inr ⟨rfl, fun c h => h⟩
  · rename_i cart s1 hres
    have hbase : errUnchanged s s1 := ⟨(get_cart_ok hres).2.1, carts_subset_resolve hres⟩
    split
    · exact Or.inr hbase
    · split
      · exact Or.inl rfl
      · exact Or.inr hbase

/-- Either `merge_carts` succeeds, or the store is untouched. -/
theorem merge_cases (cap : Nat) (s : Store) (userId : Nat) (old_key : String) :
    isErr (merge_carts cap s userId old_key).1 = false ∨
      errUnchanged s (merge_carts cap s userId old_key).2 := by
  unfold merge_carts
  split
  · exact Or.inr ⟨rfl, fun c h => h⟩
  · rename_i dest s1 hres
    split
    · exact Or.inl rfl
    · exact Or.inl rfl

/-! ## Claim theorems -/

/-- C3: the derived cart totals are exact folds over the current line
items with current catalog data — `total_items` is the sum of quantities,
`total_price` the sum of quantity × unit price (equivalently, of the
per-item `total_price`), `total_carbon_footprint` the sum of quantity ×
per-unit impact score — and each total is `0` for a cart with no line
items. -/
theorem cart_totals_are_folds (s : Store) (c : Cart) :
    Cart.total_items s c = ((itemsOf s c.id).map CartItem.quantity).sum ∧
    Cart.total_price s c
      = ((itemsOf s c.id).map fun it => (it.quantity : ℚ) * priceOf s it.product).sum ∧
    Cart.total_carbon_footprint s c
      = ((itemsOf s c.id).map fun it => (it.quantity : ℚ) * carbonOf s it.product).sum ∧
    Cart.total_price s c = ((itemsOf s c.id).map (CartItem.total_price s)).sum ∧
    Cart.total_carbon_footprint s c
      = ((itemsOf s c.id).map (CartItem.total_carbon s)).sum ∧
    (itemsOf s c.id = [] →
      Cart.total_items s c = 0 ∧ Cart.total_price s c = 0 ∧
        Cart.total_carbon_footprint s c = 0) := by
  refine ⟨sqlSumN_getD _, sqlSumQ_getD _, sqlSumQ_getD _, ?_, ?_, ?_⟩
  · rw [Cart.total_price, sqlSumQ_getD]
    exact congrArg List.sum (List.map_congr_left fun it _ => by
      rw [CartItem.total_price, mul_comm])
  · rw [Cart.total_carbon_footprint, sqlSumQ_getD]
    exact congrArg List.sum (List.map_congr_left fun it _ => by
      rw [CartItem.total_carbon, mul_comm])
  · intro h
    refine ⟨?_, ?_, ?_⟩ <;>
      simp [Cart.total_items, Cart.total_price, Cart.total_carbon_footprint,
        h, sqlSumN, sqlSumQ]

/-- Witness for the totals theorem: concrete empty cart, all three totals
evaluate to zero. -/
theorem cart_totals_are_folds_witness :
    Cart.total_items ⟨[], [⟨1, some 7, none⟩], [], 2, 1⟩ ⟨1, some 7, none⟩ = 0 ∧
      Cart.total_price ⟨[], [⟨1, some 7, none⟩], [], 2, 1⟩ ⟨1, some 7, none⟩ = 0 ∧
      Cart.total_carbon_footprint ⟨[], [⟨1, some 7, none⟩], [], 2, 1⟩ ⟨1, some 7, none⟩ = 0 :=
  (cart_totals_are_folds ⟨[], [⟨1, some 7, none⟩], [], 2, 1⟩
    ⟨1, some 7, none⟩).2.2.2.2.2 (by decide)

/-- C4: whenever a dispatched operation is rejected with a business error,
the outcome carries the error's kind and message, the line-item table is
exactly what it was before the operation, and every pre-existing cart row
is still present verbatim — no partial application is observable. -/
theorem business_error_leaves_cart_unchanged (cap : Nat) (ident : Identity)
    (s : Store) (op : CartOp)
    (herr : isErr (applyOp cap ident s op).1 = true) :
    (applyOp cap ident s op).2.cartItems = s.cartItems ∧
      (∀ c ∈ s.carts, c ∈ (applyOp cap ident s op).2.carts) ∧
      ∃ e, (applyOp cap ident s op).1 = .error e := by
  have hsplit : errUnchanged s (applyOp cap ident s op).2 := by
    cases op with
    | add pid q =>
      rcases add_cases cap s ident pid q with h | h
      · rw [show (applyOp cap ident s (.add pid q)).1
            = Except.map (fun _ => ()) (add_to_cart cap s ident pid q).1 from rfl,
          isErr_map, h] at herr
        cases herr
      · exact h
    | adjust itemId d =>
      rcases adjust_cases cap s ident itemId d with h | h
      · rw [show (applyOp cap ident s (.adjust itemId d)).1
            = Except.map (fun _ => ()) (update_cart_item cap s ident itemId d).1 from rfl,
          isErr_map, h] at herr
        cases herr
      · exact h
    | remove itemId =>
      rcases remove_cases s ident itemId with h | h
      · rw [show (applyOp cap ident s (.remove itemId)).1
            = Except.map (fun _ => ()) (remove_from_cart s ident itemId).1 from rfl,
          isErr_map, h] at herr
        cases herr
      · exact h
    | clear =>
      rcases clear_cases s ident with h | h
      · rw [show (applyOp cap ident s .clear).1 = (clear_cart s ident).1 from rfl, h] at herr
        cases herr
      · exact h
    | checkoutOp addr res =>
      rcases checkout_cases s ident addr res with h | h
      · rw [show (applyOp cap ident s (.checkoutOp addr res)).1
            = Except.map (fun _ => ()) (checkout s ident addr res).1 from rfl,
          isErr_map, h] at herr
        cases herr
      · exact h
    | mergeOp k =>
      simp only [applyOp] at herr ⊢
      cases hu : ident.user with
      | some u =>
        rw [hu] at herr
        have herr2 : isErr (merge_carts cap s u k).1 = true := by
          rw [← isErr_map (fun _ => ()) (merge_carts cap s u k).1]
          exact herr
        rcases merge_cases cap s u k with h | h
        · rw [h] at herr2; cases herr2
        · exact h
      | none => exact ⟨rfl, fun c h => h⟩
  refine ⟨hsplit.1, hsplit.2, ?_⟩
  cases he : (applyOp cap ident s op).1 with
  | error e => exact ⟨e, rfl⟩
  | ok v => rw [he] at herr; cases herr

/-- Witness for the error-unchanged theorem: adding quantity 0 is rejected
and the concrete store is untouched. -/
theorem business_error_leaves_cart_unchanged_witness :
    (applyOp 5 ⟨none, some "a"⟩ ⟨[⟨1, 2, 1⟩], [], [], 0, 0⟩ (.add 1 0)).2.cartItems = [] ∧
      ∃ e, (applyOp 5 ⟨none, some "a"⟩ ⟨[⟨1, 2, 1⟩], [], [], 0, 0⟩ (.add 1 0)).1 = .error e := by
  have h := business_error_leaves_cart_unchanged 5 ⟨none, some "a"⟩
    ⟨[⟨1, 2, 1⟩], [], [], 0, 0⟩ (.add 1 0) (by decide)
  exact ⟨h.1, h.2.2⟩

/-- C1: after any sequence of add/adjust operations no cart holds two line
items with the same catalog reference, and an add for an already-present
product updates the existing row — same primary key, summed quantity — with
the table's row count unchanged, rather than creating a second row. -/
theorem cart_rows_unique_per_product :
    (∀ cap ident s ops, WF s → (∀ op ∈ ops, CartOp.isAddAdjust op = true) →
      uniquePerCart (applyOps cap ident s ops)) ∧
    (∀ cap ident s pid (q : Int) c s1 it, WF s →
      get_cart s ident = Except.ok (c, s1) → it ∈ s1.cartItems →
      it.cart = c.id → it.product = pid →
      (add_to_cart cap s ident pid q).2.cartItems.length = s.cartItems.length ∧
      ∀ r, (add_to_cart cap s ident pid q).1 = .ok r →
        r.id = it.id ∧ r.quantity = it.quantity + q.toNat) := by
  constructor
  · intro cap ident s ops hwf hops
    exact uniquePerCart_addAdjust_ops cap ident s ops hwf.2.2.2.1 hops
  · intro cap ident s pid q c s1 it hwf h1 hmem hcart hprod
    have huniq1 : uniquePerCart s1 := by
      intro a ha b hb
      rw [(get_cart_ok h1).2.1] at ha hb
      exact hwf.2.2.2.1 a ha b hb
    have hlen1 : s1.cartItems.length = s.cartItems.length := by
      rw [(get_cart_ok h1).2.1]
    unfold add_to_cart
    split
    · exact ⟨rfl, fun r hr => by cases hr⟩
    · rename_i v hser
      cases v
      split
      · rename_i e heq
        rw [h1] at heq
        cases heq
      · rename_i cart' s1' heq
        rw [h1] at heq
        injection heq with heq
        cases heq
        split
        · rename_i it0 hfind
          have hit0 : it0 = it := by
            have hp := List.find?_some hfind
            simp only [Bool.and_eq_true, beq_iff_eq] at hp
            exact huniq1 it0 (List.mem_of_find?_eq_some hfind) it hmem
              (hp.1.trans hcart.symm) (hp.2.trans hprod.symm)
          subst hit0
          split
          · exact ⟨hlen1, fun r hr => by cases hr⟩
          · refine ⟨?_, ?_⟩
            · show (setQty s1.cartItems it0.id (it0.quantity + q.toNat)).length
                = s.cartItems.length
              rw [setQty, List.length_map, hlen1]
            · intro r hr
              injection hr with hr
              subst hr
              exact ⟨rfl, rfl⟩
        · rename_i hfind
          exfalso
          have := List.find?_eq_none.mp hfind it hmem
          simp [hcart, hprod] at this

/-- Witness for the uniqueness theorem: a concrete add/add/adjust sequence
on an empty store keeps one row per product, and a second add of the same
product merges into the existing row. -/
theorem cart_rows_unique_per_product_witness :
    uniquePerCart (applyOps 5 ⟨none, some "a"⟩ ⟨[⟨1, 2, 1⟩], [], [], 0, 0⟩
      [.add 1 2, .add 1 1, .adjust 0 (-1)]) ∧
      (add_to_cart 5 ⟨[⟨1, 2, 1⟩], [⟨0, none, some "a"⟩], [⟨0, 0, 1, 2⟩], 1, 1⟩
        ⟨none, some "a"⟩ 1 1).2.cartItems.length = 1 := by
  constructor
  · exact cart_rows_unique_per_product.1 5 ⟨none, some "a"⟩ ⟨[⟨1, 2, 1⟩], [], [], 0, 0⟩
      [.add 1 2, .add 1 1, .adjust 0 (-1)] (by decide) (by decide)
  · exact (cart_rows_unique_per_product.2 5 ⟨none, some "a"⟩
      ⟨[⟨1, 2, 1⟩], [⟨0, none, some "a"⟩], [⟨0, 0, 1, 2⟩], 1, 1⟩ 1 1
      ⟨0, none, some "a"⟩ ⟨[⟨1, 2, 1⟩], [⟨0, none, some "a"⟩], [⟨0, 0, 1, 2⟩], 1, 1⟩
      ⟨0, 0, 1, 2⟩ (by decide) (by rfl) (by decide) (by decide) (by decide)).1

/-- C2: every cart row arising from any operation carries exactly one
identity — an authenticated user id or an anonymous session key, never
both and never neither — and no operation rewrites an existing cart's
row: a cart keeps its identity from creation on. -/
theorem cart_identity_exactly_one_and_immutable (cap : Nat) (ident : Identity)
    (s : Store) (op : CartOp) (hid : cartsIdentityOk s) (hkeys : cartIdsOk s) :
    cartsIdentityOk (applyOp cap ident s op).2 ∧
      ∀ c ∈ s.carts, ∀ c2 ∈ (applyOp cap ident s op).2.carts,
        c2.id = c.id → c2 = c := by
  constructor
  · intro c2 h2
    rcases carts_applyOp cap ident s op c2 h2 with h2 | ⟨hok, -⟩
    · exact hid c2 h2
    · exact hok
  · intro c hc c2 h2 hsame
    rcases carts_applyOp cap ident s op c2 h2 with h2 | ⟨-, hfresh⟩
    · exact List.inj_on_of_nodup_map hkeys.1 h2 hc hsame
    · exfalso
      have := hkeys.2 c hc
      omega

/-- Witness for the identity theorem: an anonymous add on a concrete store
keeps the user cart verbatim and every cart single-keyed. -/
theorem cart_identity_exactly_one_and_immutable_witness :
    cartsIdentityOk (applyOp 5 ⟨none, some "a"⟩
        ⟨[⟨1, 2, 1⟩], [⟨0, some 9, none⟩], [], 1, 0⟩ (.add 1 2)).2 ∧
      ∀ c2 ∈ (applyOp 5 ⟨none, some "a"⟩
        ⟨[⟨1, 2, 1⟩], [⟨0, some 9, none⟩], [], 1, 0⟩ (.add 1 2)).2.carts,
        c2.id = 0 → c2 = ⟨0, some 9, none⟩ := by
  have h := cart_identity_exactly_one_and_immutable 5 ⟨none, some "a"⟩
    ⟨[⟨1, 2, 1⟩], [⟨0, some 9, none⟩], [], 1, 0⟩ (.add 1 2) (by decide) (by decide)
  exact ⟨h.1, fun c2 h2 hs => h.2 ⟨0, some 9, none⟩ (by decide) c2 h2 hs⟩

/-- A serializer rejection short-circuits `add_to_cart` with that error. -/
theorem add_serializer_error {cap : Nat} {s : Store} {ident : Identity}
    {pid : Nat} {q : Int} {e : BusinessError}
    (h : AddToCartSerializer.run s cap pid q = .error e) :
    (add_to_cart cap s ident pid q).1 = .error e := by
  unfold add_to_cart
  split
  · rename_i e2 h2
    rw [h] at h2
    cases h2
    rfl
  · rename_i v h2
    rw [h] at h2
    cases h2

/-- A non-positive requested quantity is rejected by the serializer as a
validation error. -/
theorem addSerializer_qle {s : Store} {cap pid : Nat} {q : Int} (hq : q ≤ 0) :
    ∃ m, AddToCartSerializer.run s cap pid q = .error (.validationError m) := by
  unfold AddToCartSerializer.run
  split
  · exact ⟨_, rfl⟩
  · refine ⟨"Ensure this value is greater than or equal to 1.", ?_⟩
    rw [if_pos (show q < 1 by omega)]

/-- An unresolvable product id is rejected by the serializer as a
validation error. -/
theorem addSerializer_noProduct {s : Store} {cap pid : Nat} {q : Int}
    (h : findProduct s pid = none) :
    ∃ m, AddToCartSerializer.run s cap pid q = .error (.validationError m) := by
  unfold AddToCartSerializer.run
  refine ⟨"Product does not exist", ?_⟩
  rw [if_pos (by simp [h])]

/-- A requested quantity above the cap (with valid product and positive
quantity) is rejected by the serializer as a cap violation. -/
theorem addSerializer_capExceeded {s : Store} {cap pid : Nat} {q : Int}
    (hp : findProduct s pid ≠ none) (h1 : 1 ≤ q) (h2 : (cap : Int) < q) :
    ∃ m, AddToCartSerializer.run s cap pid q = .error (.limitExceededError m) := by
  unfold AddToCartSerializer.run
  refine ⟨"Cannot add more than MAX_CART_QUANTITY of the same product", ?_⟩
  rw [if_neg (by simp only [Option.isNone_iff_eq_none]; exact hp),
    if_neg (show ¬(q < 1) by omega), if_pos h2]

/-- C5: `addItem` fails with `ValidationError` whenever the quantity is
≤ 0 or the product id does not resolve; it fails with `LimitExceededError`
whenever the requested quantity alone, or the existing row's quantity plus
the requested quantity, exceeds the cap; and in every failure case no line
item is created or modified. -/
theorem add_item_validation_and_cap :
    (∀ (cap : Nat) (s : Store) (ident : Identity) (pid : Nat) (q : Int), q ≤ 0 →
      ∃ m, (add_to_cart cap s ident pid q).1 = .error (.validationError m)) ∧
    (∀ (cap : Nat) (s : Store) (ident : Identity) (pid : Nat) (q : Int),
      findProduct s pid = none →
      ∃ m, (add_to_cart cap s ident pid q).1 = .error (.validationError m)) ∧
    (∀ (cap : Nat) (s : Store) (ident : Identity) (pid : Nat) (q : Int),
      findProduct s pid ≠ none → 1 ≤ q → (cap : Int) < q →
      ∃ m, (add_to_cart cap s ident pid q).1 = .error (.limitExceededError m)) ∧
    (∀ (cap : Nat) (s : Store) (ident : Identity) (pid : Nat) (q : Int) c s1 it, WF s →
      AddToCartSerializer.run s cap pid q = .ok () →
      get_cart s ident = .ok (c, s1) → it ∈ s1.cartItems → it.cart = c.id →
      it.product = pid → cap < it.quantity + q.toNat →
      (add_to_cart cap s ident pid q).1
        = .error (.limitExceededError "Cannot add more than MAX_CART_QUANTITY of the same product")) ∧
    (∀ (cap : Nat) (s : Store) (ident : Identity) (pid : Nat) (q : Int),
      isErr (add_to_cart cap s ident pid q).1 = true →
      (add_to_cart cap s ident pid q).2.cartItems = s.cartItems) := by
  refine ⟨?_, ?_, ?_, ?_, ?_⟩
  · intro cap s ident pid q hq
    obtain ⟨m, hm⟩ := @addSerializer_qle s cap pid q hq
    exact ⟨m, add_serializer_error hm⟩
  · intro cap s ident pid q hp
    obtain ⟨m, hm⟩ := @addSerializer_noProduct s cap pid q hp
    exact ⟨m, add_serializer_error hm⟩
  · intro cap s ident pid q hp h1 h2
    obtain ⟨m, hm⟩ := addSerializer_capExceeded hp h1 h2
    exact ⟨m, add_serializer_error hm⟩
  · intro cap s ident pid q c s1 it hwf hser h1 hmem hcart hprod hover
    have huniq1 : uniquePerCart s1 := by
      intro a ha b hb
      rw [(get_cart_ok h1).2.1] at ha hb
      exact hwf.2.2.2.1 a ha b hb
    unfold add_to_cart
    split
    · rename_i e h2
      rw [hser] at h2
      cases h2
    · rename_i v h2
      cases v
      split
      · rename_i e heq
        rw [h1] at heq
        cases heq
      · rename_i cart' s1' heq
        rw [h1] at heq
        injection heq with heq
        cases heq
        split
        · rename_i it0 hfind
          have hit0 : it0 = it := by
            have hp := List.find?_some hfind
            simp only [Bool.and_eq_true, beq_iff_eq] at hp
            exact huniq1 it0 (List.mem_of_find?_eq_some hfind) it hmem
              (hp.1.trans hcart.symm) (hp.2.trans hprod.symm)
          subst hit0
          rw [if_pos hover]
        · rename_i hfind
          exfalso
          have := List.find?_eq_none.mp hfind it hmem
          simp [hcart, hprod] at this
  · intro cap s ident pid q herr
    rcases add_cases cap s ident pid q with h | h
    · rw [h] at herr
      cases herr
    · exact h.1

/-- Witness for the add validation theorem: each rejection fires at a
concrete input and the concrete store is untouched. -/
theorem add_item_validation_and_cap_witness :
    (∃ m, (add_to_cart 5 ⟨[⟨1, 2, 1⟩], [], [], 0, 0⟩ ⟨none, some "a"⟩ 1 0).1
      = .error (.validationError m)) ∧
    (∃ m, (add_to_cart 5 ⟨[⟨1, 2, 1⟩], [], [], 0, 0⟩ ⟨none, some "a"⟩ 2 1).1
      = .error (.validationError m)) ∧
    (∃ m, (add_to_cart 5 ⟨[⟨1, 2, 1⟩], [], [], 0, 0⟩ ⟨none, some "a"⟩ 1 6).1
      = .error (.limitExceededError m)) ∧
    (add_to_cart 5 ⟨[⟨1, 2, 1⟩], [⟨0, none, some "a"⟩], [⟨0, 0, 1, 4⟩], 1, 1⟩
      ⟨none, some "a"⟩ 1 3).1
      = .error (.limitExceededError "Cannot add more than MAX_CART_QUANTITY of the same product") ∧
    (add_to_cart 5 ⟨[⟨1, 2, 1⟩], [], [], 0, 0⟩ ⟨none, some "a"⟩ 1 0).2.cartItems = [] := by
  refine ⟨?_, ?_, ?_, ?_, ?_⟩
  · exact add_item_validation_and_cap.1 5 ⟨[⟨1, 2, 1⟩], [], [], 0, 0⟩
      ⟨none, some "a"⟩ 1 0 (by decide)
  · exact add_item_validation_and_cap.2.1 5 ⟨[⟨1, 2, 1⟩], [], [], 0, 0⟩
      ⟨none, some "a"⟩ 2 1 (by decide)
  · exact add_item_validation_and_cap.2.2.1 5 ⟨[⟨1, 2, 1⟩], [], [], 0, 0⟩
      ⟨none, some "a"⟩ 1 6 (by decide) (by decide) (by decide)
  · exact add_item_validation_and_cap.2.2.2.1 5
      ⟨[⟨1, 2, 1⟩], [⟨0, none, some "a"⟩], [⟨0, 0, 1, 4⟩], 1, 1⟩ ⟨none, some "a"⟩ 1 3
      ⟨0, none, some "a"⟩ ⟨[⟨1, 2, 1⟩], [⟨0, none, some "a"⟩], [⟨0, 0, 1, 4⟩], 1, 1⟩
      ⟨0, 0, 1, 4⟩ (by decide) (by rfl) (by rfl) (by decide) (by decide) (by decide) (by decide)
  · exact add_item_validation_and_cap.2.2.2.2 5 ⟨[⟨1, 2, 1⟩], [], [], 0, 0⟩
      ⟨none, some "a"⟩ 1 0 (by decide)

/-- C6: an adjust whose delta brings the row's quantity to 0 or below
succeeds and deletes the row instead of failing; after any sequence of
operations no stored row has quantity ≤ 0 (with a positive cap); and the
delta itself must be a non-zero signed integer of magnitude at most the
cap, anything else being rejected by validation. -/
theorem adjust_deletes_nonpositive_and_qty_positive :
    (∀ (cap : Nat) (s : Store) (ident : Identity) (itemId : Nat) (d : Int) c s1 it,
      WF s → get_cart s ident = .ok (c, s1) → it ∈ s1.cartItems →
      it.id = itemId → it.cart = c.id →
      UpdateCartItemSerializer.run cap d = .ok () →
      (it.quantity : Int) + d ≤ 0 →
      (update_cart_item cap s ident itemId d).1 = .ok none ∧
        ∀ j ∈ (update_cart_item cap s ident itemId d).2.cartItems, j.id ≠ itemId) ∧
    (∀ (cap : Nat) (ident : Identity) (s : Store) (ops : List CartOp),
      1 ≤ cap → qtyPos s → qtyPos (applyOps cap ident s ops)) ∧
    (∀ (cap : Nat) (d : Int), d = 0 ∨ (cap : Int) < d ∨ d < -(cap : Int) →
      ∃ m, UpdateCartItemSerializer.run cap d = .error (.validationError m)) := by
  refine ⟨?_, ?_, ?_⟩
  · intro cap s ident itemId d c s1 it hwf h1 hmem hid hcart hser hle
    have hids1 : (s1.cartItems.map CartItem.id).Nodup := by
      rw [(get_cart_ok h1).2.1]
      exact hwf.2.1.1
    unfold update_cart_item
    split
    · rename_i e h2
      rw [hser] at h2
      cases h2
    · rename_i v h2
      cases v
      split
      · rename_i e heq
        rw [h1] at heq
        cases heq
      · rename_i cart' s1' heq
        rw [h1] at heq
        injection heq with heq
        cases heq
        split
        · rename_i hfind
          exfalso
          have := List.find?_eq_none.mp hfind it hmem
          simp [hid, hcart] at this
        · rename_i it0 hfind
          have hit0 : it0 = it := by
            have hp := List.find?_some hfind
            simp only [Bool.and_eq_true, beq_iff_eq] at hp
            exact List.inj_on_of_nodup_map hids1
              (List.mem_of_find?_eq_some hfind) hmem (hp.1.trans hid.symm)
          subst hit0
          rw [if_pos hle]
          refine ⟨rfl, ?_⟩
          intro j hj
          have hj2 := List.of_mem_filter hj
          simp only [bne_iff_ne, ne_eq] at hj2
          rw [← hid]
          exact hj2
  · intro cap ident s ops hcap h
    exact qtyPos_applyOps cap ident s ops hcap h
  · intro cap d hd
    unfold UpdateCartItemSerializer.run
    rcases hd with rfl | hd | hd
    · refine ⟨"Quantity delta cannot be 0", ?_⟩
      rw [if_neg (show ¬((0 : Int) < -(cap : Int)) by omega),
        if_neg (show ¬((cap : Int) < (0 : Int)) by omega), if_pos (by decide)]
    · refine ⟨"Ensure this value is less than or equal to MAX_CART_QUANTITY.", ?_⟩
      rw [if_neg (show ¬(d < -(cap : Int)) by omega), if_pos hd]
    · refine ⟨"Ensure this value is greater than or equal to -MAX_CART_QUANTITY.", ?_⟩
      rw [if_pos hd]

/-- Witness for the adjust theorem: on a concrete one-row cart, a delta of
-2 against quantity 2 deletes the row; positivity holds after a concrete
sequence; delta 0 is rejected. -/
theorem adjust_deletes_nonpositive_and_qty_positive_witness :
    ((update_cart_item 5 ⟨[⟨1, 2, 1⟩], [⟨0, none, some "a"⟩], [⟨3, 0, 1, 2⟩], 1, 4⟩
        ⟨none, some "a"⟩ 3 (-2)).1 = .ok none ∧
      ∀ j ∈ (update_cart_item 5 ⟨[⟨1, 2, 1⟩], [⟨0, none, some "a"⟩], [⟨3, 0, 1, 2⟩], 1, 4⟩
        ⟨none, some "a"⟩ 3 (-2)).2.cartItems, j.id ≠ 3) ∧
    qtyPos (applyOps 5 ⟨none, some "a"⟩ ⟨[⟨1, 2, 1⟩], [], [], 0, 0⟩
      [.add 1 2, .adjust 0 (-1), .add 1 4]) ∧
    (∃ m, UpdateCartItemSerializer.run 5 0 = .error (.validationError m)) := by
  refine ⟨?_, ?_, ?_⟩
  · exact adjust_deletes_nonpositive_and_qty_positive.1 5
      ⟨[⟨1, 2, 1⟩], [⟨0, none, some "a"⟩], [⟨3, 0, 1, 2⟩], 1, 4⟩ ⟨none, some "a"⟩ 3 (-2)
      ⟨0, none, some "a"⟩ ⟨[⟨1, 2, 1⟩], [⟨0, none, some "a"⟩], [⟨3, 0, 1, 2⟩], 1, 4⟩
      ⟨3, 0, 1, 2⟩ (by decide) (by rfl) (by decide) (by decide) (by decide)
      (by rfl) (by decide)
  · exact adjust_deletes_nonpositive_and_qty_positive.2.1 5 ⟨none, some "a"⟩
      ⟨[⟨1, 2, 1⟩], [], [], 0, 0⟩ [.add 1 2, .adjust 0 (-1), .add 1 4]
      (by decide) (by decide)
  · exact adjust_deletes_nonpositive_and_qty_positive.2.2 5 0 (Or.inl rfl)

/-- C7: an adjust or remove naming an item id that does not belong to the
cart resolved for the requesting identity — including an id that exists
under some other cart — fails with `NotFoundError` and leaves the line
items untouched. -/
theorem cross_cart_item_access_rejected
    (cap : Nat) (s : Store) (ident : Identity) (itemId : Nat) (d : Int)
    (c : Cart) (s1 : Store) (h1 : get_cart s ident = .ok (c, s1))
    (hnot : ∀ it ∈ s1.cartItems, it.cart = c.id → it.id ≠ itemId) :
    (UpdateCartItemSerializer.run cap d = .ok () →
      (update_cart_item cap s ident itemId d).1
          = .error (.notFoundError "Cart item not found") ∧
        (update_cart_item cap s ident itemId d).2.cartItems = s.cartItems) ∧
    ((remove_from_cart s ident itemId).1
        = .error (.notFoundError "Cart item not found") ∧
      (remove_from_cart s ident itemId).2.cartItems = s.cartItems) := by
  have hfind : s1.cartItems.find? (fun it => it.id == itemId && it.cart == c.id) = none := by
    rw [List.find?_eq_none]
    intro it hit
    simp only [Bool.and_eq_true, beq_iff_eq, not_and]
    intro hid hcart
    exact hnot it hit hcart hid
  constructor
  · intro hser
    unfold update_cart_item
    split
    · rename_i e h2
      rw [hser] at h2
      cases h2
    · rename_i v h2
      cases v
      split
      · rename_i e heq
        rw [h1] at heq
        cases heq
      · rename_i cart' s1' heq
        rw [h1] at heq
        injection heq with heq
        cases heq
        rw [hfind]
        exact ⟨rfl, (get_cart_ok h1).2.1⟩
  · unfold remove_from_cart
    split
    · rename_i e heq
      rw [h1] at heq
      cases heq
    · rename_i cart' s1' heq
      rw [h1] at heq
      injection heq with heq
      cases heq
      rw [hfind]
      exact ⟨rfl, (get_cart_ok h1).2.1⟩

/-- Witness for the cross-cart rejection theorem: item 5 lives under the
user cart, the anonymous identity resolves the session cart, and both
adjust and remove are rejected with the store untouched. -/
theorem cross_cart_item_access_rejected_witness :
    ((update_cart_item 5
        ⟨[⟨1, 2, 1⟩], [⟨0, none, some "a"⟩, ⟨1, some 9, none⟩], [⟨5, 1, 1, 2⟩], 2, 6⟩
        ⟨none, some "a"⟩ 5 1).1 = .error (.notFoundError "Cart item not found")) ∧
    ((remove_from_cart
        ⟨[⟨1, 2, 1⟩], [⟨0, none, some "a"⟩, ⟨1, some 9, none⟩], [⟨5, 1, 1, 2⟩], 2, 6⟩
        ⟨none, some "a"⟩ 5).1 = .error (.notFoundError "Cart item not found")) := by
  have h := cross_cart_item_access_rejected 5
    ⟨[⟨1, 2, 1⟩], [⟨0, none, some "a"⟩, ⟨1, some 9, none⟩], [⟨5, 1, 1, 2⟩], 2, 6⟩
    ⟨none, some "a"⟩ 5 1 ⟨0, none, some "a"⟩
    ⟨[⟨1, 2, 1⟩], [⟨0, none, some "a"⟩, ⟨1, some 9, none⟩], [⟨5, 1, 1, 2⟩], 2, 6⟩
    (by rfl) (by decide)
  exact ⟨(h.1 (by rfl)).1, h.2.1⟩

/-- C8: merging with no existing anonymous cart for the old session token
is a no-op that does not fail: it returns the resolved (created if absent)
destination cart together with an empty warning list, and the resulting
store is exactly the post-resolution store, whose line items are those
before the merge. -/
theorem merge_without_source_cart_is_noop (cap : Nat) (s : Store)
    (userId : Nat) (old_key : String) (dest : Cart) (s1 : Store)
    (h1 : get_cart s ⟨some userId, none⟩ = .ok (dest, s1))
    (h2 : findCartBySession s1 old_key = none) :
    (merge_carts cap s userId old_key).1 = .ok (dest, []) ∧
      (merge_carts cap s userId old_key).2 = s1 ∧
      s1.cartItems = s.cartItems := by
  unfold merge_carts
  split
  · rename_i e heq
    rw [h1] at heq
    cases heq
  · rename_i dest' s1' heq
    rw [h1] at heq
    injection heq with heq
    cases heq
    rw [h2]
    exact ⟨rfl, rfl, (get_cart_ok h1).2.1⟩

/-- Witness for the merge no-op theorem: empty store, user 9, token with
no anonymous cart — the destination cart is created and returned with no
warnings. -/
theorem merge_without_source_cart_is_noop_witness :
    (merge_carts 5 ⟨[], [], [], 0, 0⟩ 9 "gone").1 = .ok (⟨0, some 9, none⟩, []) ∧
      (merge_carts 5 ⟨[], [], [], 0, 0⟩ 9 "gone").2
        = ⟨[], [⟨0, some 9, none⟩], [], 1, 0⟩ := by
  have h := merge_without_source_cart_is_noop 5 ⟨[], [], [], 0, 0⟩ 9 "gone"
    ⟨0, some 9, none⟩ ⟨[], [⟨0, some 9, none⟩], [], 1, 0⟩ (by rfl) (by rfl)
  exact ⟨h.1, h.2.1⟩

/-! ## Middleware lemmas -/

/-- `ensureSession` yields a session key: non-`none` always, and non-falsy
whenever the generated key is non-empty. -/
theorem ensureSession_session_key (newKey : String) (sess : SessionState) :
    (ensureSession newKey sess).session_key ≠ none ∧
      (newKey ≠ "" → strFalsy (ensureSession newKey sess).session_key = false) := by
  unfold ensureSession
  split
  · constructor
    · simp
    · intro h
      simp only [strFalsy, beq_eq_false_iff_ne, ne_eq]
      exact h
  · rename_i hf
    have hf2 : strFalsy sess.session_key = false := by
      cases hsf : strFalsy sess.session_key
      · rfl
      · exact absurd hsf hf
    constructor
    · intro hn
      rw [hn] at hf2
      cases hf2
    · intro h2
      exact hf2

/-- `ensureSession` never touches the stored old session key. -/
theorem ensureSession_old (newKey : String) (sess : SessionState) :
    (ensureSession newKey sess).old_session_key = sess.old_session_key := by
  unfold ensureSession
  split <;> rfl

/-- Unfolding equation of the middleware for a present user. -/
theorem storeOldSession_some (newKey : String) (isAuth : Bool)
    (sess : SessionState) :
    storeOldSessionCall newKey (some isAuth) sess
      = if isAuth then ensureSession newKey sess
        else if (ensureSession newKey sess).old_session_key = none then
          { ensureSession newKey sess with
            old_session_key := (ensureSession newKey sess).session_key }
        else ensureSession newKey sess := rfl

/-- Unfolding equation of the middleware for an absent user attribute. -/
theorem storeOldSession_none (newKey : String) (sess : SessionState) :
    storeOldSessionCall newKey none sess = ensureSession newKey sess := rfl

/-- C9: after the middleware every request has a session key (created when
the incoming one was falsy); `old_session_key` changes only for a request
whose user is present and unauthenticated and only when no key was stored,
in which case it receives the (possibly freshly created) session key; an
already-stored `old_session_key` is never overwritten. -/
theorem middleware_preserves_first_old_session_key (newKey : String)
    (user : Option Bool) (sess : SessionState) :
    (storeOldSessionCall newKey user sess).session_key ≠ none ∧
    (newKey ≠ "" →
      strFalsy (storeOldSessionCall newKey user sess).session_key = false) ∧
    ((storeOldSessionCall newKey user sess).old_session_key
        ≠ sess.old_session_key →
      user = some false ∧ sess.old_session_key = none ∧
        (storeOldSessionCall newKey user sess).old_session_key
          = (ensureSession newKey sess).session_key) ∧
    (∀ k, sess.old_session_key = some k →
      (storeOldSessionCall newKey user sess).old_session_key = some k) := by
  have hsk := ensureSession_session_key newKey sess
  have hold := ensureSession_old newKey sess
  cases user with
  | none =>
    rw [storeOldSession_none]
    exact ⟨hsk.1, hsk.2, fun hch => absurd hold hch,
      fun k hk => hold.trans hk⟩
  | some isAuth =>
    cases isAuth with
    | true =>
      rw [storeOldSession_some, if_pos rfl]
      exact ⟨hsk.1, hsk.2, fun hch => absurd hold hch,
        fun k hk => hold.trans hk⟩
    | false =>
      rw [storeOldSession_some, if_neg (by simp)]
      by_cases ho : (ensureSession newKey sess).old_session_key = none
      · rw [if_pos ho]
        refine ⟨hsk.1, hsk.2, ?_, ?_⟩
        · intro hch
          exact ⟨rfl, hold.symm.trans ho, rfl⟩
        · intro k hk
          rw [hold, hk] at ho
          cases ho
      · rw [if_neg ho]
        exact ⟨hsk.1, hsk.2, fun hch => absurd hold hch,
          fun k hk => hold.trans hk⟩

/-- Witness for the middleware theorem: an unauthenticated request with a
fresh session stores the new key; an authenticated request with a stored
key leaves it alone. -/
theorem middleware_preserves_first_old_session_key_witness :
    (storeOldSessionCall "k1" (some false) ⟨none, none⟩).session_key ≠ none ∧
      (storeOldSessionCall "k1" (some true) ⟨some "s", some "old"⟩).old_session_key
        = some "old" := by
  constructor
  · exact (middleware_preserves_first_old_session_key "k1" (some false) ⟨none, none⟩).1
  · exact (middleware_preserves_first_old_session_key "k1" (some true)
      ⟨some "s", some "old"⟩).2.2.2 "old" rfl

/-- Unfolding equation of the merge endpoint when no old session key is
stored. -/
theorem mergeView_none
    (svc : Store → Nat → String → (Except BusinessError (Cart × List String)) × Store)
    (s : Store) (sess : SessionState) (userId : Nat)
    (hk : sess.old_session_key = none) :
    mergeCartViewPost svc s sess userId
      = (.error (.validationError "No anonymous cart to merge"), sess, s) := by
  unfold mergeCartViewPost
  rw [hk]

/-- Unfolding equation of the merge endpoint when an old session key is
stored. -/
theorem mergeView_some
    (svc : Store → Nat → String → (Except BusinessError (Cart × List String)) × Store)
    (s : Store) (sess : SessionState) (userId : Nat) (k : String)
    (hk : sess.old_session_key = some k) :
    mergeCartViewPost svc s sess userId
      = if k == "" then
          (.error (.validationError "No anonymous cart to merge"), sess, s)
        else match svc s userId k with
          | (.ok r, s1) => (.ok r, { sess with old_session_key := none }, s1)
          | (.error e, s1) => (.error e, sess, s1) := by
  unfold mergeCartViewPost
  rw [hk]

/-- C10: the merge endpoint rejects a request with no stored (or empty)
`old_session_key` without invoking the merge service and without touching
session or store; when the service succeeds it pops the stored key, so an
immediate second post is rejected; when the service raises a business
error the stored key is left in place. -/
theorem merge_endpoint_pops_key_only_on_success :
    (∀ (svc : Store → Nat → String → (Except BusinessError (Cart × List String)) × Store)
      (s : Store) (sess : SessionState) (userId : Nat),
      strFalsy sess.old_session_key = true →
      (mergeCartViewPost svc s sess userId).1
          = .error (.validationError "No anonymous cart to merge") ∧
        (mergeCartViewPost svc s sess userId).2.1 = sess ∧
        (mergeCartViewPost svc s sess userId).2.2 = s ∧
        ∀ svc2, mergeCartViewPost svc2 s sess userId
          = mergeCartViewPost svc s sess userId) ∧
    (∀ (svc : Store → Nat → String → (Except BusinessError (Cart × List String)) × Store)
      (s : Store) (sess : SessionState) (userId : Nat) (k : String) r (s1 : Store),
      sess.old_session_key = some k → k ≠ "" → svc s userId k = (.ok r, s1) →
      (mergeCartViewPost svc s sess userId).1 = .ok r ∧
        (mergeCartViewPost svc s sess userId).2.1.old_session_key = none ∧
        (mergeCartViewPost svc s sess userId).2.2 = s1 ∧
        ∀ svc2 s2, (mergeCartViewPost svc2 s2
            (mergeCartViewPost svc s sess userId).2.1 userId).1
          = .error (.validationError "No anonymous cart to merge")) ∧
    (∀ (svc : Store → Nat → String → (Except BusinessError (Cart × List String)) × Store)
      (s : Store) (sess : SessionState) (userId : Nat) (k : String)
      (e : BusinessError) (s1 : Store),
      sess.old_session_key = some k → k ≠ "" → svc s userId k = (.error e, s1) →
      (mergeCartViewPost svc s sess userId).1 = .error e ∧
        (mergeCartViewPost svc s sess userId).2.1 = sess) := by
  refine ⟨?_, ?_, ?_⟩
  · intro svc s sess userId hf
    cases hk : sess.old_session_key with
    | none =>
      rw [mergeView_none svc s sess userId hk]
      exact ⟨rfl, rfl, rfl, fun svc2 => by
        rw [mergeView_none svc2 s sess userId hk]⟩
    | some k =>
      have hke : (k == "") = true := by
        rw [hk] at hf
        exact hf
      rw [mergeView_some svc s sess userId k hk, if_pos hke]
      exact ⟨rfl, rfl, rfl, fun svc2 => by
        rw [mergeView_some svc2 s sess userId k hk, if_pos hke]⟩
  · intro svc s sess userId k r s1 hk hne hsvc
    rw [mergeView_some svc s sess userId k hk,
      if_neg (by simp only [beq_iff_eq]; exact hne), hsvc]
    refine ⟨rfl, rfl, rfl, ?_⟩
    intro svc2 s2
    rw [mergeView_none svc2 s2 _ _ rfl]
  · intro svc s sess userId k e s1 hk hne hsvc
    rw [mergeView_some svc s sess userId k hk,
      if_neg (by simp only [beq_iff_eq]; exact hne), hsvc]
    exact ⟨rfl, rfl⟩

/-- Witness for the merge-endpoint theorem: no stored key is rejected; a
successful concrete service pops the key; a failing concrete service
leaves it stored. -/
theorem merge_endpoint_pops_key_only_on_success_witness :
    (mergeCartViewPost (fun t _ _ => (.error (.validationError "x"), t))
        ⟨[], [], [], 0, 0⟩ ⟨some "a", none⟩ 1).1
      = .error (.validationError "No anonymous cart to merge") ∧
    (mergeCartViewPost (fun t _ _ => (.ok (⟨0, some 1, none⟩, []), t))
        ⟨[], [], [], 0, 0⟩ ⟨some "a", some "x"⟩ 1).2.1.old_session_key = none ∧
    (mergeCartViewPost (fun t _ _ => (.error (.emptyCartError "Cart is empty"), t))
        ⟨[], [], [], 0, 0⟩ ⟨some "a", some "x"⟩ 1).2.1 = ⟨some "a", some "x"⟩ := by
  refine ⟨?_, ?_, ?_⟩
  · exact (merge_endpoint_pops_key_only_on_success.1
      (fun t _ _ => (.error (.validationError "x"), t))
      ⟨[], [], [], 0, 0⟩ ⟨some "a", none⟩ 1 (by decide)).1
  · exact (merge_endpoint_pops_key_only_on_success.2.1
      (fun t _ _ => (.ok (⟨0, some 1, none⟩, []), t))
      ⟨[], [], [], 0, 0⟩ ⟨some "a", some "x"⟩ 1 "x" (⟨0, some 1, none⟩, [])
      ⟨[], [], [], 0, 0⟩ rfl (by decide) rfl).2.1
  · exact (merge_endpoint_pops_key_only_on_success.2.2
      (fun t _ _ => (.error (.emptyCartError "Cart is empty"), t))
      ⟨[], [], [], 0, 0⟩ ⟨some "a", some "x"⟩ 1 "x" (.emptyCartError "Cart is empty")
      ⟨[], [], [], 0, 0⟩ rfl (by decide) rfl).2

end CartCore
